import Mathlib

/-
  Verification development for the two-stage video reversal pipeline of
  `youtube_reverse_player.py` (functions `parse_ffmpeg_progress`,
  `get_video_duration`, `two_step_reverse_and_fps`).

  Python strings are embedded as `List Char`; Python's `str.split(sep)`,
  `str.strip()` and `float()` are modelled below.  Machine floats are
  modelled as rationals: every concrete decimal appearing in the claims
  (e.g. `3723.5`) is exactly representable in binary floating point, and
  the arithmetic the code performs on the modelled inputs is exact.
-/

deriving instance DecidableEq for Except

namespace YRP

section development

attribute [local semireducible] Rat.mul Rat.inv Rat.add Rat.sub Rat.ofScientific

/-- A Python string, embedded as its list of characters. -/
abbrev PyStr := List Char

/-- Character list of a Lean string literal. -/
def pyStr (s : String) : PyStr := s.data

/-- ASCII whitespace as recognised by Python's `str.strip()`
(modelled subset: the six ASCII whitespace characters). -/
def pySpace (c : Char) : Bool :=
  c == ' ' || c == '\t' || c == '\n' || c == '\x0d' || c == '\x0b' || c == '\x0c'

/-- Python `s.strip()`: drop leading and trailing whitespace. -/
def pyStrip (s : PyStr) : PyStr :=
  ((s.dropWhile pySpace).reverse.dropWhile pySpace).reverse

/-- `leadsWith pat s` holds when `pat` is a prefix of `s`. -/
def leadsWith : PyStr → PyStr → Bool
  | [], _ => true
  | _ :: _, [] => false
  | a :: as, b :: bs => a == b && leadsWith as bs

/-- Fuel-driven worker for `pySplit`; the fuel is the length of the input,
which suffices because every step consumes at least one character. -/
def pySplitFuel (sep : PyStr) : Nat → PyStr → PyStr → List PyStr
  | _, [], acc => [acc]
  | 0, s, acc => [acc ++ s]
  | fuel + 1, c :: rest, acc =>
    if !sep.isEmpty && leadsWith sep (c :: rest) then
      acc :: pySplitFuel sep fuel ((c :: rest).drop sep.length) []
    else
      pySplitFuel sep fuel rest (acc ++ [c])

/-- Python `s.split(sep)` for a non-empty separator: non-overlapping,
left-to-right; always returns a non-empty list, with empty pieces kept. -/
def pySplit (sep s : PyStr) : List PyStr :=
  pySplitFuel sep s.length s []

/-- Numeric value of a run of decimal digits. -/
def digitsVal (ds : PyStr) : ℚ :=
  ds.foldl (fun a c => a * 10 + ((c.toNat - 48 : Nat) : ℚ)) 0

/-- Value of a fractional digit run, i.e. `digits / 10 ^ length`. -/
def fracVal (ds : PyStr) : ℚ :=
  digitsVal ds / 10 ^ ds.length

/-- Modelled subset of Python `float(str)`: optional surrounding
whitespace, optional sign, a digit run with at most one decimal point,
at least one digit overall.  (The exponent, `inf`/`nan` and underscore
forms accepted by CPython are outside the subset; every numeric literal
exercised by the claims is in the subset, and every rejection the claims
rely on is a rejection in CPython as well.)  `none` models `float`
raising `ValueError`. -/
def pyFloat? (s : PyStr) : Option ℚ :=
  let t := pyStrip s
  let signed : ℚ × PyStr :=
    match t with
    | '-' :: r => (-1, r)
    | '+' :: r => (1, r)
    | r => (1, r)
  let sign := signed.1
  let body := signed.2
  let ds := body.takeWhile Char.isDigit
  let rest := body.dropWhile Char.isDigit
  match rest with
  | [] => if ds.isEmpty then none else some (sign * digitsVal ds)
  | '.' :: frac =>
    if frac.all Char.isDigit && !(ds.isEmpty && frac.isEmpty) then
      some (sign * (digitsVal ds + fracVal frac))
    else none
  | _ => none

/-- A Python exception escaping the progress parser: the `ValueError`
raised by `float()` on a non-numeric timestamp component. -/
inductive PyErr
  | valueError
deriving DecidableEq, Repr

/-- One iteration of the body of `parse_ffmpeg_progress` on a dequeued
line (lines 124-137 of the source): strip, look for the first `time=`
marker, take the following space-delimited token, split it on `:`;
exactly three components are converted with `float` and combined as
`h*3600 + m*60 + s`; a different component count is ignored silently;
a non-numeric component raises `ValueError` (there is no `try` around
the `float` calls).  `Except.ok none` means no elapsed value for this
line; `Except.ok (some t)` means elapsed time `t` was parsed. -/
def parseLineExc (line : PyStr) : Except PyErr (Option ℚ) :=
  let l := pyStrip line
  let parts := pySplit (pyStr "time=") l
  if parts.length > 1 then
    let tStr := (pySplit (pyStr " ") (parts.getD 1 [])).getD 0 []
    let hhmmss := pySplit (pyStr ":") tStr
    if hhmmss.length = 3 then
      match pyFloat? (hhmmss.getD 0 []), pyFloat? (hhmmss.getD 1 []),
            pyFloat? (hhmmss.getD 2 []) with
      | some h, some m, some s => Except.ok (some (h * 3600 + m * 60 + s))
      | _, _, _ => Except.error PyErr.valueError
    else Except.ok none
  else Except.ok none

/-- The queue-draining loop of `parse_ffmpeg_progress` (lines 117-137):
the captured diagnostic lines arrive in FIFO order and the loop ends at
the `None` sentinel, modelled as the end of the list.  Returns the list
of percentages passed to `update_callback`, in call order, together
with the exception (if any) that aborted the loop; percentages emitted
before the exception have already been delivered.  A percentage is
emitted only when `total_duration > 0`, as `pct = current / total * 100`
with no clamping. -/
def runProgress (lines : List PyStr) (dur : ℚ) : List ℚ × Option PyErr :=
  match lines with
  | [] => ([], none)
  | l :: ls =>
    match parseLineExc l with
    | Except.error e => ([], some e)
    | Except.ok none => runProgress ls dur
    | Except.ok (some current) =>
      if 0 < dur then
        ((current / dur * 100) :: (runProgress ls dur).1, (runProgress ls dur).2)
      else runProgress ls dur

/-- The elapsed-time markers successfully parsed from a line sequence,
in FIFO order, truncated at the first line whose processing raises. -/
def elapsedList (lines : List PyStr) : List ℚ :=
  match lines with
  | [] => []
  | l :: ls =>
    match parseLineExc l with
    | Except.error _ => []
    | Except.ok none => elapsedList ls
    | Except.ok (some current) => current :: elapsedList ls

/-- Outcome of one `ffprobe` invocation as observed by
`get_video_duration`: the launch failed, or the process exited with a
code and combined stdout+stderr text. -/
inductive Probe
  | launchFail
  | exited (code : Nat) (out : PyStr)
deriving DecidableEq

/-- `get_video_duration` (lines 140-155): `subprocess.check_output`
raises on launch failure and on non-zero exit; `float(out.strip())`
raises on unparsable text; the bare `except` absorbs every such error
and returns `0.0`.  On success the probed duration is returned. -/
def getVideoDuration (p : Probe) : ℚ :=
  match p with
  | Probe.launchFail => 0
  | Probe.exited code out =>
    if code = 0 then (pyFloat? (pyStrip out)).getD 0 else 0

/-- The two transcode stages of `two_step_reverse_and_fps`. -/
inductive Stage
  | reverse
  | resample
deriving DecidableEq

/-- An exception escaping `two_step_reverse_and_fps` to its caller:
a `ValueError` out of `parse_ffmpeg_progress`, or the
`CalledProcessError` raised by `subprocess.run(cmd, check=True)` when a
stage's process exits non-zero (the model's stage-failure error). -/
inductive RunError
  | parseError (e : PyErr)
  | stageFailed (s : Stage)
deriving DecidableEq

/-- The external world a run of `two_step_reverse_and_fps` interacts
with: the `ffprobe` outcome for the input file and for the stage-1
intermediate file, the (deterministic) exit code of each stage's ffmpeg
command, and the diagnostic lines each stage's streaming invocation
feeds through the queue.  A stage's command is launched twice by the
code (once streaming in `run_cmd`, once blocking via `subprocess.run`);
the model gives both invocations the same exit code. -/
structure World where
  inputProbe : Probe
  step1Probe : Probe
  reverseExit : Nat
  resampleExit : Nat
  reverseLines : List PyStr
  resampleLines : List PyStr
deriving DecidableEq

/-- Observable state accumulated by a run of
`two_step_reverse_and_fps`: every percentage handed to
`progress_callback` in call order, every process launch in order,
the `dur` argument given to each stage's `run_cmd` (None while the
stage was not reached), and whether the stage-1 intermediate file and
the final output file exist when the function returns.  A completed
ffmpeg invocation leaves its output file present exactly when it exited
with code 0. -/
structure RunState where
  events : List ℚ
  started : List Stage
  stage1Dur : Option ℚ
  stage2Dur : Option ℚ
  step1Exists : Bool
  outExists : Bool
deriving DecidableEq

/-- `two_step_reverse_and_fps` (lines 158-237): probe the input
duration; stream cmd1's diagnostics through `parse_ffmpeg_progress`
(`run_cmd(cmd1, total_dur)`); run cmd1 again blocking with
`check=True`; probe the intermediate file freshly; call
`progress_callback(0)`; stream cmd2 (`run_cmd(cmd2, dur_step2)`);
run cmd2 again blocking with `check=True`; finally delete the
intermediate file.  Any exception propagates immediately, skipping the
remaining statements — in particular the cleanup `os.remove(step1)`
runs only when both `check=True` calls succeed. -/
def twoStepReverseAndFps (w : World) : RunState × Except RunError Unit :=
  let totalDur := getVideoDuration w.inputProbe
  let r1 := runProgress w.reverseLines totalDur
  let s1 : RunState :=
    { events := r1.1, started := [Stage.reverse],
      stage1Dur := some totalDur, stage2Dur := none,
      step1Exists := w.reverseExit == 0, outExists := false }
  match r1.2 with
  | some e => (s1, Except.error (RunError.parseError e))
  | none =>
    let s2 := { s1 with started := s1.started ++ [Stage.reverse] }
    if w.reverseExit ≠ 0 then
      (s2, Except.error (RunError.stageFailed Stage.reverse))
    else
      let durStep2 := getVideoDuration w.step1Probe
      let s3 := { s2 with events := s2.events ++ [0] }
      let r2 := runProgress w.resampleLines durStep2
      let s4 := { s3 with
        events := s3.events ++ r2.1,
        started := s3.started ++ [Stage.resample],
        stage2Dur := some durStep2,
        outExists := w.resampleExit == 0 }
      match r2.2 with
      | some e => (s4, Except.error (RunError.parseError e))
      | none =>
        let s5 := { s4 with started := s4.started ++ [Stage.resample] }
        if w.resampleExit ≠ 0 then
          (s5, Except.error (RunError.stageFailed Stage.resample))
        else
          ({ s5 with step1Exists := false }, Except.ok ())

/-- Structure of the emitted percentages: when the duration is positive
they are exactly the parsed elapsed values scaled by `100 / dur`, in
order; otherwise nothing is emitted. -/
theorem runProgress_fst (lines : List PyStr) (dur : ℚ) :
    (runProgress lines dur).1
      = if 0 < dur then (elapsedList lines).map (fun c => c / dur * 100)
        else [] := by
  induction lines with
  | nil => simp [runProgress, elapsedList]
  | cons l ls ih =>
    cases hp : parseLineExc l with
    | error e => simp [runProgress, elapsedList, hp]
    | ok o =>
      cases o with
      | none => simp [runProgress, elapsedList, hp, ih]
      | some c =>
        by_cases hd : 0 < dur
        · simp [runProgress, elapsedList, hp, hd, ih]
        · simp [runProgress, elapsedList, hp, hd, ih]

/-- C3: for every input line whose first `time=` marker is followed by a
well-formed timestamp token (three colon-separated numeric components
`a : b : c` with values `h`, `m`, `s`), the line parser returns elapsed
seconds `h * 3600 + m * 60 + s`; in particular a line containing
`time=01:02:03.50` yields `3723.5` (see the witness). -/
theorem wellformed_marker_elapsed (line p0 p1 : PyStr) (ps : List PyStr)
    (a b c : PyStr) (h m s : ℚ)
    (hsplit : pySplit (pyStr "time=") (pyStrip line) = p0 :: p1 :: ps)
    (htok : pySplit (pyStr ":") ((pySplit (pyStr " ") p1).getD 0 [])
      = [a, b, c])
    (ha : pyFloat? a = some h) (hb : pyFloat? b = some m)
    (hc : pyFloat? c = some s) :
    parseLineExc line = Except.ok (some (h * 3600 + m * 60 + s)) := by
  simp only [parseLineExc]
  rw [hsplit]
  simp only [List.length_cons, List.getD_cons_succ, List.getD_cons_zero]
  rw [if_pos (by omega)]
  rw [htok]
  simp [ha, hb, hc]

/-- C3 witness: a concrete diagnostic line containing
`time=01:02:03.50` parses to elapsed seconds `3723.5`. -/
theorem wellformed_marker_elapsed_witness :
    parseLineExc (pyStr "frame=5 time=01:02:03.50 bitrate=300k")
      = Except.ok (some (3723.5 : ℚ)) := by
  have h := wellformed_marker_elapsed
    (pyStr "frame=5 time=01:02:03.50 bitrate=300k")
    (pyStr "frame=5 ") (pyStr "01:02:03.50 bitrate=300k") []
    (pyStr "01") (pyStr "02") (pyStr "03.50") 1 2 3.5
    (by decide) (by decide) (by decide) (by decide) (by decide)
  rw [h]
  norm_num

/-- C1 (amended): for a line whose first `time=` marker is followed by a
token with a segment count other than three, the parser yields no event
and raises nothing; but a three-segment token with a non-numeric
component raises a `ValueError` that propagates to the caller (the
`float` calls are not guarded). -/
theorem malformed_timestamp_behavior (line p0 p1 : PyStr) (ps : List PyStr)
    (hsplit : pySplit (pyStr "time=") (pyStrip line) = p0 :: p1 :: ps) :
    ((pySplit (pyStr ":") ((pySplit (pyStr " ") p1).getD 0 [])).length ≠ 3 →
        parseLineExc line = Except.ok none)
    ∧ (∀ a b c,
        pySplit (pyStr ":") ((pySplit (pyStr " ") p1).getD 0 []) = [a, b, c] →
        pyFloat? a = none ∨ pyFloat? b = none ∨ pyFloat? c = none →
        parseLineExc line = Except.error PyErr.valueError) := by
  constructor
  · intro hlen
    simp only [parseLineExc]
    rw [hsplit]
    simp only [List.length_cons, List.getD_cons_succ, List.getD_cons_zero]
    rw [if_pos (by omega), if_neg hlen]
  · intro a b c htok hnone
    simp only [parseLineExc]
    rw [hsplit]
    simp only [List.length_cons, List.getD_cons_succ, List.getD_cons_zero]
    rw [if_pos (by omega), htok]
    simp only [List.length_cons, List.length_nil, List.getD_cons_succ,
      List.getD_cons_zero, if_pos rfl]
    rcases hnone with hn | hn | hn <;> rw [hn] <;>
      cases pyFloat? a <;> cases pyFloat? b <;> cases pyFloat? c <;> rfl

/-- C1 counterexample: the line `time=aa:bb:cc` carries a malformed
timestamp (non-numeric components), yet the parser raises a
`ValueError` to its caller instead of absorbing it silently. -/
theorem malformed_timestamp_raises_cex :
    parseLineExc (pyStr "time=aa:bb:cc") = Except.error PyErr.valueError
    ∧ parseLineExc (pyStr "time=aa:bb:cc") ≠ Except.ok none := by
  constructor <;> decide

/-- C1 witness: on `time=1:2 x` (two segments) the parser silently
yields no event; on `time=a:b:c x` (three non-numeric segments) it
raises. -/
theorem malformed_timestamp_behavior_witness :
    parseLineExc (pyStr "time=1:2 x") = Except.ok none
    ∧ parseLineExc (pyStr "time=a:b:c x") = Except.error PyErr.valueError := by
  constructor
  · exact (malformed_timestamp_behavior (pyStr "time=1:2 x")
      [] (pyStr "1:2 x") [] (by decide)).1 (by decide)
  · exact (malformed_timestamp_behavior (pyStr "time=a:b:c x")
      [] (pyStr "a:b:c x") [] (by decide)).2
      (pyStr "a") (pyStr "b") (pyStr "c") (by decide) (Or.inl (by decide))

/-- C4: when the probed total duration is not strictly positive, the
parsing loop never invokes the progress callback, whatever elapsed
values the lines carry: the division by the duration is guarded by
`total_duration > 0`. -/
theorem nonpositive_duration_no_events (lines : List PyStr) (dur : ℚ)
    (hd : dur ≤ 0) : (runProgress lines dur).1 = [] := by
  rw [runProgress_fst, if_neg (not_lt.mpr hd)]

/-- C4 witness: with total duration `0`, a line carrying a valid
elapsed marker produces no callback invocation. -/
theorem nonpositive_duration_no_events_witness :
    (0 : ℚ) ≤ 0
    ∧ (runProgress [pyStr "x time=00:00:10.0 y"] 0).1 = [] :=
  ⟨le_refl 0,
    nonpositive_duration_no_events [pyStr "x time=00:00:10.0 y"] 0 (le_refl 0)⟩

/-- C7: within one stage, lines are consumed in FIFO order; if the
sequence of successfully parsed elapsed-time markers is monotonically
increasing, the percentages delivered to the callback are monotonically
non-decreasing in emission order (a malformed line withholds an event
rather than regressing one). -/
theorem monotone_markers_monotone_events (lines : List PyStr) (dur : ℚ)
    (hmono : List.Chain' (fun a b => a < b) (elapsedList lines)) :
    List.Chain' (fun a b => a ≤ b) ((runProgress lines dur).1) := by
  rw [runProgress_fst]
  split
  case isTrue hd =>
    rw [List.chain'_map]
    refine hmono.imp ?_
    intro a b hab
    have h1 : a / dur ≤ b / dur := (div_le_div_iff_of_pos_right hd).mpr hab.le
    exact mul_le_mul_of_nonneg_right h1 (by norm_num)
  case isFalse hd => exact List.chain'_nil

/-- C7 witness: two lines with increasing markers (1s then 2s) against a
10-second duration yield the non-decreasing percentages 10 and 20. -/
theorem monotone_markers_monotone_events_witness :
    List.Chain' (fun a b => a < b)
      (elapsedList [pyStr "time=00:00:01.0 a", pyStr "time=00:00:02.0 b"])
    ∧ List.Chain' (fun a b => a ≤ b)
      ((runProgress [pyStr "time=00:00:01.0 a", pyStr "time=00:00:02.0 b"] 10).1) := by
  have hc : List.Chain' (fun a b => a < b)
      (elapsedList [pyStr "time=00:00:01.0 a", pyStr "time=00:00:02.0 b"]) := by
    have he : elapsedList [pyStr "time=00:00:01.0 a", pyStr "time=00:00:02.0 b"]
        = [1, 2] := by decide
    rw [he]
    exact List.chain'_pair.mpr (by norm_num)
  exact ⟨hc, monotone_markers_monotone_events _ 10 hc⟩

/-- C8 (amended): every percentage delivered to the callback equals
`elapsed / total * 100` with no clamping; it lies in `[0, 100]`
provided every parsed elapsed value lies in `[0, total]`, but an
elapsed value beyond the probed total produces a percentage above 100
(the GUI sink clamps separately, outside this pipeline). -/
theorem events_bounded_when_elapsed_bounded (lines : List PyStr) (dur : ℚ)
    (hd : 0 < dur) (hb : ∀ e ∈ elapsedList lines, 0 ≤ e ∧ e ≤ dur) :
    ∀ p ∈ (runProgress lines dur).1, 0 ≤ p ∧ p ≤ 100 := by
  rw [runProgress_fst, if_pos hd]
  intro p hp
  rcases List.mem_map.mp hp with ⟨e, he, rfl⟩
  obtain ⟨h0, h1⟩ := hb e he
  constructor
  · exact mul_nonneg (div_nonneg h0 hd.le) (by norm_num)
  · have h2 : e / dur ≤ 1 := (div_le_one hd).mpr h1
    calc e / dur * 100 ≤ 1 * 100 :=
          mul_le_mul_of_nonneg_right h2 (by norm_num)
      _ = 100 := by norm_num

/-- C8 counterexample: with a probed total of 1 second, the line
`time=01:00:00.0` (elapsed 3600 s) makes the parser deliver the
fraction 360000 to the callback, far outside `[0, 100]`: the emitted
fraction is not always in `[0, 100]`. -/
theorem events_exceed_100_cex :
    (runProgress [pyStr "time=01:00:00.0 x"] 1).1 = [360000]
    ∧ (100 : ℚ) < 360000 := by
  constructor <;> decide

/-- C8 witness: duration 10 with a single elapsed marker of 5 seconds
satisfies the bounds hypothesis, and every emitted percentage is inside
`[0, 100]`. -/
theorem events_bounded_when_elapsed_bounded_witness :
    (0 : ℚ) < 10
    ∧ ∀ p ∈ (runProgress [pyStr "time=00:00:05.0 x"] 10).1,
        0 ≤ p ∧ p ≤ 100 := by
  refine ⟨by norm_num, events_bounded_when_elapsed_bounded _ 10 (by norm_num) ?_⟩
  have he : elapsedList [pyStr "time=00:00:05.0 x"] = [5] := by decide
  rw [he]
  intro e hee
  rw [List.mem_singleton.mp hee]
  norm_num

/-- C9: the duration probe absorbs every failure and returns `0.0`
without raising — launch failure, non-zero exit status, and output that
does not parse as a number all yield 0; a zero exit with parsable
output yields the probed duration.  (The function is total: the bare
`except` in the source means no error ever reaches the caller.) -/
theorem probe_failures_absorbed (out : PyStr) :
    getVideoDuration Probe.launchFail = 0
    ∧ (∀ code, code ≠ 0 → getVideoDuration (Probe.exited code out) = 0)
    ∧ (pyFloat? (pyStrip out) = none → getVideoDuration (Probe.exited 0 out) = 0)
    ∧ (∀ q, pyFloat? (pyStrip out) = some q →
        getVideoDuration (Probe.exited 0 out) = q) := by
  refine ⟨rfl, ?_, ?_, ?_⟩
  · intro code hcode
    simp [getVideoDuration, hcode]
  · intro hnone
    simp [getVideoDuration, hnone]
  · intro q hq
    simp [getVideoDuration, hq]

/-- C9 witness: a non-zero exit yields 0, unparsable output yields 0,
and a successful probe of ` 12.5 ` yields `12.5` seconds. -/
theorem probe_failures_absorbed_witness :
    getVideoDuration (Probe.exited 1 (pyStr "12.5")) = 0
    ∧ getVideoDuration (Probe.exited 0 (pyStr "abc")) = 0
    ∧ getVideoDuration (Probe.exited 0 (pyStr " 12.5 ")) = 25 / 2 :=
  ⟨(probe_failures_absorbed (pyStr "12.5")).2.1 1 (by decide),
   (probe_failures_absorbed (pyStr "abc")).2.2.1 (by decide),
   (probe_failures_absorbed (pyStr " 12.5 ")).2.2.2 (25 / 2) (by decide)⟩

/-- C10: in a run that reaches stage 2, the progress callback is
invoked with fraction 0 at the transition from stage 1 to stage 2,
before any stage-2 progress event: the full callback trace is the
stage-1 percentages, then 0, then the stage-2 percentages, so the
reported fraction regresses to 0 across the stage boundary. -/
theorem stage_boundary_resets_to_zero (w : World)
    (hrev : w.reverseExit = 0)
    (hb1 : (runProgress w.reverseLines (getVideoDuration w.inputProbe)).2
      = none) :
    (twoStepReverseAndFps w).1.events
      = (runProgress w.reverseLines (getVideoDuration w.inputProbe)).1
        ++ 0 :: (runProgress w.resampleLines (getVideoDuration w.step1Probe)).1 := by
  unfold twoStepReverseAndFps
  simp only [hb1]
  rw [hrev]
  simp only [ne_eq, not_true_eq_false, if_false, reduceCtorEq]
  rcases h2 : (runProgress w.resampleLines (getVideoDuration w.step1Probe)).2 with
    _ | e
  · simp only [h2]
    split
    · simp
    · simp
  · simp only [h2]
    simp

/-- C10 witness: a run with a 10-second input, a 5-second intermediate
and one stage-2 marker at 2.5 s produces the callback trace `[0, 50]`:
the 0 at the stage boundary precedes every stage-2 event. -/
theorem stage_boundary_resets_to_zero_witness :
    (twoStepReverseAndFps
      { inputProbe := Probe.exited 0 (pyStr "10.0"),
        step1Probe := Probe.exited 0 (pyStr "5.0"),
        reverseExit := 0, resampleExit := 0,
        reverseLines := [],
        resampleLines := [pyStr "time=00:00:02.50 b"] }).1.events
      = [0, 50] := by
  have h := stage_boundary_resets_to_zero
    { inputProbe := Probe.exited 0 (pyStr "10.0"),
      step1Probe := Probe.exited 0 (pyStr "5.0"),
      reverseExit := 0, resampleExit := 0,
      reverseLines := [],
      resampleLines := [pyStr "time=00:00:02.50 b"] }
    (by decide) (by decide)
  rw [h]
  decide

/-- C5: in every run that reaches stage 2, the duration used to scale
the stage-2 progress fractions is the one probed freshly from the
stage-1 intermediate artifact, and the stage-2 percentages are computed
against that duration — never against the duration probed from the
original input. -/
theorem stage2_scaled_by_fresh_probe (w : World)
    (hrev : w.reverseExit = 0)
    (hb1 : (runProgress w.reverseLines (getVideoDuration w.inputProbe)).2
      = none) :
    (twoStepReverseAndFps w).1.stage2Dur
      = some (getVideoDuration w.step1Probe)
    ∧ (twoStepReverseAndFps w).1.events
      = (runProgress w.reverseLines (getVideoDuration w.inputProbe)).1
        ++ 0 :: (runProgress w.resampleLines (getVideoDuration w.step1Probe)).1 := by
  unfold twoStepReverseAndFps
  simp only [hb1]
  rw [hrev]
  simp only [ne_eq, not_true_eq_false, if_false, reduceCtorEq]
  rcases h2 : (runProgress w.resampleLines (getVideoDuration w.step1Probe)).2 with
    _ | e
  · simp only [h2]
    split
    · constructor <;> simp
    · constructor <;> simp
  · simp only [h2]
    constructor <;> simp

/-- C5 witness: with a 10-second input and a 5-second intermediate, the
RESAMPLE stage's duration is 5, and a stage-2 marker at 2.5 s yields
the fraction 50 (against 5 seconds), not 25 (against 10 seconds). -/
theorem stage2_scaled_by_fresh_probe_witness :
    (twoStepReverseAndFps
      { inputProbe := Probe.exited 0 (pyStr "10.0"),
        step1Probe := Probe.exited 0 (pyStr "5.0"),
        reverseExit := 0, resampleExit := 0,
        reverseLines := [pyStr "time=00:00:04.0 a"],
        resampleLines := [pyStr "time=00:00:02.50 b"] }).1.stage2Dur
      = some 5
    ∧ (twoStepReverseAndFps
      { inputProbe := Probe.exited 0 (pyStr "10.0"),
        step1Probe := Probe.exited 0 (pyStr "5.0"),
        reverseExit := 0, resampleExit := 0,
        reverseLines := [pyStr "time=00:00:04.0 a"],
        resampleLines := [pyStr "time=00:00:02.50 b"] }).1.events
      = [40, 0, 50] := by
  have h := stage2_scaled_by_fresh_probe
    { inputProbe := Probe.exited 0 (pyStr "10.0"),
      step1Probe := Probe.exited 0 (pyStr "5.0"),
      reverseExit := 0, resampleExit := 0,
      reverseLines := [pyStr "time=00:00:04.0 a"],
      resampleLines := [pyStr "time=00:00:02.50 b"] }
    (by decide) (by decide)
  constructor
  · rw [h.1]
    decide
  · rw [h.2]
    decide

/-- C6: when the stage-1 (reverse) process exits non-zero, the whole
operation aborts with a stage-failure error for the REVERSE stage
propagated to the caller, and the stage-2 (resample) command is never
started. -/
theorem stage1_failure_aborts (w : World)
    (hrev : w.reverseExit ≠ 0)
    (hb1 : (runProgress w.reverseLines (getVideoDuration w.inputProbe)).2
      = none) :
    (twoStepReverseAndFps w).2
      = Except.error (RunError.stageFailed Stage.reverse)
    ∧ Stage.resample ∉ (twoStepReverseAndFps w).1.started := by
  unfold twoStepReverseAndFps
  simp only [hb1]
  rw [if_pos hrev]
  constructor
  · rfl
  · simp

/-- C6 witness: with stage-1 exit code 3, the run aborts with
StageFailed(REVERSE) and the resample stage is never launched. -/
theorem stage1_failure_aborts_witness :
    (twoStepReverseAndFps
      { inputProbe := Probe.exited 0 (pyStr "10.0"),
        step1Probe := Probe.exited 0 (pyStr "5.0"),
        reverseExit := 3, resampleExit := 0,
        reverseLines := [pyStr "time=00:00:04.0 a"],
        resampleLines := [] }).2
      = Except.error (RunError.stageFailed Stage.reverse)
    ∧ Stage.resample ∉ (twoStepReverseAndFps
      { inputProbe := Probe.exited 0 (pyStr "10.0"),
        step1Probe := Probe.exited 0 (pyStr "5.0"),
        reverseExit := 3, resampleExit := 0,
        reverseLines := [pyStr "time=00:00:04.0 a"],
        resampleLines := [] }).1.started :=
  stage1_failure_aborts
    { inputProbe := Probe.exited 0 (pyStr "10.0"),
      step1Probe := Probe.exited 0 (pyStr "5.0"),
      reverseExit := 3, resampleExit := 0,
      reverseLines := [pyStr "time=00:00:04.0 a"],
      resampleLines := [] }
    (by decide) (by decide)

/-- C2 (amended): when the stage-2 (resample) process exits non-zero,
the operation returns a stage-failure error for the RESAMPLE stage to
the caller, but the stage-1 intermediate artifact is NOT deleted: the
cleanup statement runs only after a zero-exit stage 2, so the
intermediate file is still on disk when the error propagates. -/
theorem stage2_failure_keeps_intermediate (w : World)
    (hrev : w.reverseExit = 0)
    (hb1 : (runProgress w.reverseLines (getVideoDuration w.inputProbe)).2
      = none)
    (hb2 : (runProgress w.resampleLines (getVideoDuration w.step1Probe)).2
      = none)
    (hfail : w.resampleExit ≠ 0) :
    (twoStepReverseAndFps w).2
      = Except.error (RunError.stageFailed Stage.resample)
    ∧ (twoStepReverseAndFps w).1.step1Exists = true := by
  unfold twoStepReverseAndFps
  simp only [hb1, hb2]
  rw [hrev]
  simp only [ne_eq, not_true_eq_false, if_false, reduceCtorEq]
  rw [if_pos hfail]
  constructor
  · rfl
  · simp

/-- C2 counterexample: a run in which stage 1 succeeds and stage 2
exits with code 1 returns StageFailed(RESAMPLE), yet the stage-1
intermediate file still exists on disk when the function returns — it
has not been deleted, contradicting the claim. -/
theorem stage2_failure_intermediate_remains_cex :
    (twoStepReverseAndFps
      { inputProbe := Probe.exited 0 (pyStr "10.0"),
        step1Probe := Probe.exited 0 (pyStr "5.0"),
        reverseExit := 0, resampleExit := 1,
        reverseLines := [], resampleLines := [] }).2
      = Except.error (RunError.stageFailed Stage.resample)
    ∧ (twoStepReverseAndFps
      { inputProbe := Probe.exited 0 (pyStr "10.0"),
        step1Probe := Probe.exited 0 (pyStr "5.0"),
        reverseExit := 0, resampleExit := 1,
        reverseLines := [], resampleLines := [] }).1.step1Exists ≠ false := by
  constructor <;> decide

/-- C2 witness: a concrete stage-2 failure run returning
StageFailed(RESAMPLE) with the intermediate file still present. -/
theorem stage2_failure_keeps_intermediate_witness :
    (twoStepReverseAndFps
      { inputProbe := Probe.exited 0 (pyStr "8.0"),
        step1Probe := Probe.exited 0 (pyStr "4.0"),
        reverseExit := 0, resampleExit := 2,
        reverseLines := [pyStr "time=00:00:02.0 a"],
        resampleLines := [pyStr "time=00:00:01.0 b"] }).2
      = Except.error (RunError.stageFailed Stage.resample)
    ∧ (twoStepReverseAndFps
      { inputProbe := Probe.exited 0 (pyStr "8.0"),
        step1Probe := Probe.exited 0 (pyStr "4.0"),
        reverseExit := 0, resampleExit := 2,
        reverseLines := [pyStr "time=00:00:02.0 a"],
        resampleLines := [pyStr "time=00:00:01.0 b"] }).1.step1Exists = true :=
  stage2_failure_keeps_intermediate
    { inputProbe := Probe.exited 0 (pyStr "8.0"),
      step1Probe := Probe.exited 0 (pyStr "4.0"),
      reverseExit := 0, resampleExit := 2,
      reverseLines := [pyStr "time=00:00:02.0 a"],
      resampleLines := [pyStr "time=00:00:01.0 b"] }
    (by decide) (by decide) (by decide) (by decide)



end development

end YRP
